import Mathlib

/-!
Shallow embedding of the `wav` package (src/wav.go): a RIFF/WAVE codec.

The Go code reads from an `io.Reader`.  A reader is modelled as a list of
pending deliveries (`Rd`): a call `r.Read(buf)` with `len(buf) = n` returns
up to `n` bytes taken from the head delivery (a reader may legally return
fewer bytes than requested even when more bytes are still pending), and
reports `io.EOF` exactly when no deliveries remain.  A single-delivery
reader `[bs]` behaves like Go's `bytes.Reader` over `bs`.  This chunked
reader never produces an error other than `io.EOF`, so Go error branches
guarded by `err != nil && err != io.EOF` are unreachable in the model.

Bytes are `Nat` (kept below 256 by every writer), samples are `Int`
(Go `int`), and Go panics (index out of range, integer division by zero)
are modelled explicitly: `GoErr.panicked` for the decoder,
`Option.none` for the encoder's buffer writes.
-/

namespace Wav

/-- A reader: the list of byte deliveries still pending. -/
abbrev Rd := List (List Nat)

/-- One `r.Read(buf)` call with `len(buf) = n`: returns the delivered bytes,
the remaining reader, and whether `io.EOF` was reported (no deliveries left). -/
def readUpTo (n : Nat) (r : Rd) : List Nat × Rd × Bool :=
  match r with
  | [] => ([], [], true)
  | c :: rest =>
    if c.length ≤ n then (c, rest, false)
    else (c.take n, c.drop n :: rest, false)

/-- `make([]byte, n)` is zero-filled and `Read` fills only a prefix:
the effective buffer is the delivery padded with zero bytes to length `n`. -/
def padTo (n : Nat) (bs : List Nat) : List Nat :=
  bs ++ List.replicate (n - bs.length) 0

/-- `binary.BigEndian.Uint32(buf[off:off+4])`. -/
def beU32 (buf : List Nat) (off : Nat) : Nat :=
  buf.getD off 0 * 16777216 + buf.getD (off + 1) 0 * 65536 +
    buf.getD (off + 2) 0 * 256 + buf.getD (off + 3) 0

/-- `binary.LittleEndian.Uint32(buf[off:off+4])`. -/
def leU32 (buf : List Nat) (off : Nat) : Nat :=
  buf.getD off 0 + buf.getD (off + 1) 0 * 256 +
    buf.getD (off + 2) 0 * 65536 + buf.getD (off + 3) 0 * 16777216

/-- `binary.LittleEndian.Uint16(buf[off:off+2])`. -/
def leU16 (buf : List Nat) (off : Nat) : Nat :=
  buf.getD off 0 + buf.getD (off + 1) 0 * 256

/-- ASCII "RIFF". -/
def RIFF_TAG : Nat := 0x52494646
/-- ASCII "WAVE". -/
def WAVE_TAG : Nat := 0x57415645
/-- ASCII "fmt ". -/
def fmt_TAG : Nat := 0x666d7420
/-- ASCII "data". -/
def data_TAG : Nat := 0x64617461

/-- WAVE file header chunk (Go `Header`). -/
structure Header where
  Id : Nat
  Size : Nat
  Format : Nat
deriving Repr, DecidableEq

/-- fmt sub-chunk (Go `FmtChunk`). -/
structure FmtChunk where
  ID : Nat
  Size : Nat
  AudioFormat : Nat
  Channel : Nat
  SampleRate : Nat
  ByteRate : Nat
  BlockAlign : Nat
  BitsPerSample : Nat
deriving Repr, DecidableEq

/-- Channel data samples (Go `Sample = []int`). -/
abbrev Sample := List Int

/-- data sub-chunk (Go `DataChunk`). -/
structure DataChunk where
  ID : Nat
  Size : Nat
  Data : List Sample
deriving Repr, DecidableEq

/-- Go `File`: header, fmt chunk and data chunk. -/
structure File where
  header : Header
  fmtChunk : FmtChunk
  dataChunk : DataChunk
deriving Repr, DecidableEq

/-- Outcome of a Go function returning `error`, with runtime panics explicit. -/
inductive GoErr where
  | nil
  | error (msg : String)
  | panicked (msg : String)
deriving Repr, DecidableEq

/-- The zero value `File{}`. -/
def fileZero : File :=
  { header := { Id := 0, Size := 0, Format := 0 }
    fmtChunk := { ID := 0, Size := 0, AudioFormat := 0, Channel := 0,
                  SampleRate := 0, ByteRate := 0, BlockAlign := 0, BitsPerSample := 0 }
    dataChunk := { ID := 0, Size := 0, Data := [] } }

/-- Go `(h *Header) Unmarshal(r)`: one 12-byte read, tag checks, field decode.
Returns the (possibly partially updated) header, the error, the rest of the
reader. -/
def Header.Unmarshal (h : Header) (r : Rd) : Header × GoErr × Rd :=
  let rres := readUpTo 12 r
  let r2 := rres.2.1
  if rres.2.2 then (h, GoErr.error "fail to read header", r2)
  else
    let buf := padTo 12 rres.1
    let h1 := { h with Id := beU32 buf 0 }
    if h1.Id ≠ RIFF_TAG then (h1, GoErr.error "not a valid RIFF file", r2)
    else
      let h2 := { h1 with Size := leU32 buf 4, Format := beU32 buf 8 }
      if h2.Format ≠ WAVE_TAG then (h2, GoErr.error "not a valid WAVE file", r2)
      else (h2, GoErr.nil, r2)

/-- Go `(fm *FmtChunk) Unmarshal(r)`: one 24-byte read, tag check, field decode. -/
def FmtChunk.Unmarshal (fm : FmtChunk) (r : Rd) : FmtChunk × GoErr × Rd :=
  let rres := readUpTo 24 r
  let r2 := rres.2.1
  if rres.2.2 then (fm, GoErr.error "fail to read fmt chunk", r2)
  else
    let buf := padTo 24 rres.1
    let fm1 := { fm with ID := beU32 buf 0 }
    if fm1.ID ≠ fmt_TAG then (fm1, GoErr.error "not a valid fmt chunk", r2)
    else
      (({ fm1 with Size := leU32 buf 4, AudioFormat := leU16 buf 8,
                   Channel := leU16 buf 10, SampleRate := leU32 buf 12,
                   ByteRate := leU32 buf 16, BlockAlign := leU16 buf 20,
                   BitsPerSample := leU16 buf 22 } : FmtChunk),
       GoErr.nil, r2)

/-- Go `(dat *DataChunk) Unmarshal(r)`: one 8-byte read, tag check, size decode. -/
def DataChunk.Unmarshal (dat : DataChunk) (r : Rd) : DataChunk × GoErr × Rd :=
  let rres := readUpTo 8 r
  let r2 := rres.2.1
  if rres.2.2 then (dat, GoErr.error "fail to read data chunk header", r2)
  else
    let buf := padTo 8 rres.1
    let dat1 := { dat with ID := beU32 buf 0 }
    if dat1.ID ≠ data_TAG then (dat1, GoErr.error "not a valid data chunk", r2)
    else (({ dat1 with Size := leU32 buf 4 } : DataChunk), GoErr.nil, r2)

/-- `int(int8(b))`: sign extension of one byte. -/
def toInt8 (b : Nat) : Int :=
  if b < 128 then (b : Int) else (b : Int) - 256

/-- `int(int16(w))`: sign extension of a 16-bit word. -/
def toInt16 (w : Nat) : Int :=
  if w < 32768 then (w : Int) else (w : Int) - 65536

/-- `int(int32(w))`: sign extension of a 32-bit word. -/
def toInt32 (w : Nat) : Int :=
  if w < 2147483648 then (w : Int) else (w : Int) - 4294967296

/-- `data[channel][sample] = v` on per-channel sample slices. -/
def setSample (data : List Sample) (channel sample : Nat) (v : Int) : List Sample :=
  data.set channel ((data.getD channel []).set sample v)

/-- The (sample, channel) pairs visited by the nested loops
`for sample ...; for channel ...`, in visit order. -/
def framePairs (sampleCount channelCount : Nat) : List (Nat × Nat) :=
  (List.range sampleCount).flatMap (fun s => (List.range channelCount).map (fun c => (s, c)))

/-- Result of the sample-reading loop in `ParseData`. -/
inductive LoopOut where
  | ok (data : List Sample) (r : Rd)
  | error (msg : String) (r : Rd)
deriving Repr, DecidableEq

/-- The body of `ParseData`'s nested loops.  Each iteration performs one
`r.Read(buf)` on the shared 4-byte buffer (`Read` fills a prefix, the rest of
the buffer keeps its previous content; `io.EOF` is tolerated), then switches
on `BitsPerSample`.  The Go branch `err != nil && err != io.EOF`
("fail to parse sample data") is unreachable for the chunked reader. -/
def sampleLoop (bits : Nat) : List (Nat × Nat) → List Nat → Rd → List Sample → LoopOut
  | [], _, r, data => LoopOut.ok data r
  | (s, c) :: rest, buf, r, data =>
    let rres := readUpTo 4 r
    let r2 := rres.2.1
    let buf2 := rres.1 ++ buf.drop rres.1.length
    if bits = 8 then
      sampleLoop bits rest buf2 r2 (setSample data c s (toInt8 (buf2.getD 0 0)))
    else if bits = 16 then
      sampleLoop bits rest buf2 r2 (setSample data c s (toInt16 (leU16 buf2 0)))
    else if bits = 32 then
      sampleLoop bits rest buf2 r2 (setSample data c s (toInt32 (leU32 buf2 0)))
    else LoopOut.error "unsupported bits per sample" r2

/-- Go `(file *File) ParseData(r)`.  The first statement divides
`int(Size)` by `int(Channel)` and by `int(BitsPerSample/8)`; when either
divisor is zero Go panics at runtime, modelled as `GoErr.panicked`.
On loop error the receiver is unchanged (`file.DataChunk.Data` is only
assigned after a successful loop). -/
def File.ParseData (file : File) (r : Rd) : File × GoErr × Rd :=
  if file.fmtChunk.Channel = 0 ∨ file.fmtChunk.BitsPerSample / 8 = 0 then
    (file, GoErr.panicked "runtime error: integer divide by zero", r)
  else
    let sampleCount :=
      file.dataChunk.Size / file.fmtChunk.Channel / (file.fmtChunk.BitsPerSample / 8)
    let data := List.replicate file.fmtChunk.Channel (List.replicate sampleCount (0 : Int))
    match sampleLoop file.fmtChunk.BitsPerSample
        (framePairs sampleCount file.fmtChunk.Channel) (List.replicate 4 0) r data with
    | LoopOut.ok data2 r2 =>
        ({ file with dataChunk := { file.dataChunk with Data := data2 } }, GoErr.nil, r2)
    | LoopOut.error msg r2 => (file, GoErr.error msg, r2)

/-- Go `Unmarshal(r)`: header, fmt chunk, data chunk header, then sample data,
short-circuiting on the first non-nil error and returning the partial file. -/
def Unmarshal (r : Rd) : File × GoErr × Rd :=
  let hres := Header.Unmarshal fileZero.header r
  let file1 := { fileZero with header := hres.1 }
  if hres.2.1 ≠ GoErr.nil then (file1, hres.2.1, hres.2.2)
  else
    let fres := FmtChunk.Unmarshal file1.fmtChunk hres.2.2
    let file2 := { file1 with fmtChunk := fres.1 }
    if fres.2.1 ≠ GoErr.nil then (file2, fres.2.1, fres.2.2)
    else
      let dres := DataChunk.Unmarshal file2.dataChunk fres.2.2
      let file3 := { file2 with dataChunk := dres.1 }
      if dres.2.1 ≠ GoErr.nil then (file3, dres.2.1, dres.2.2)
      else File.ParseData file3 dres.2.2

/-- Write `bs` into `buf` at offset `off` (Go `copy` into a slice of `buf`);
`none` models the out-of-range panic of slicing/writing past the buffer. -/
def putBytes (buf : List Nat) (off : Nat) (bs : List Nat) : Option (List Nat) :=
  if off + bs.length ≤ buf.length then
    some (buf.take off ++ bs ++ buf.drop (off + bs.length))
  else none

/-- Big-endian bytes of a `uint32` value. -/
def be32Bytes (v : Nat) : List Nat :=
  [v / 16777216 % 256, v / 65536 % 256, v / 256 % 256, v % 256]

/-- Little-endian bytes of a `uint32` value. -/
def le32Bytes (v : Nat) : List Nat :=
  [v % 256, v / 256 % 256, v / 65536 % 256, v / 16777216 % 256]

/-- Little-endian bytes of a `uint16` value. -/
def le16Bytes (v : Nat) : List Nat :=
  [v % 256, v / 256 % 256]

/-- `uint16(int(v))`: truncation of a Go `int` to its low 16 bits. -/
def u16ofInt (v : Int) : Nat := (v % 65536).toNat

/-- The body of `MarshalData`'s nested loops: for each (sample, channel) pair,
in visit order, `binary.LittleEndian.PutUint16(buf[pos:pos+2], uint16(int(data[channel][sample])))`
and `pos += 2`.  Go evaluates the slice expression `buf[pos:pos+2]` before the
index expression, so the bounds check precedes the index check; either
out-of-range panic is `none`. -/
def marshalLoop (data : List Sample) : List (Nat × Nat) → List Nat → Nat → Option (List Nat)
  | [], buf, _ => some buf
  | (s, c) :: rest, buf, pos =>
    if pos + 2 ≤ buf.length then
      match (data.get? c).bind (fun ch => ch.get? s) with
      | some v =>
          marshalLoop data rest
            (buf.take pos ++ le16Bytes (u16ofInt v) ++ buf.drop (pos + 2)) (pos + 2)
      | none => none
    else none

/-- Go `(file File) MarshalData(buf)`: `sampleCount := len(file.DataChunk.Data[0])`
(panics when `Data` is empty), then the nested write loop, always two bytes
per sample regardless of `BitsPerSample`. -/
def File.MarshalData (file : File) (buf : List Nat) : Option (List Nat) :=
  match file.dataChunk.Data.head? with
  | none => none
  | some ch0 =>
      marshalLoop file.dataChunk.Data
        (framePairs ch0.length file.dataChunk.Data.length) buf 0

/-- Go `Marshal(file)`: allocate `make([]byte, 4+4+file.Header.Size)`, write the
three chunk headers at fixed offsets, then `file.MarshalData(buf[44:])`.
`none` models any out-of-range panic on the way. -/
def Marshal (file : File) : Option (List Nat) :=
  let buf0 := List.replicate (4 + 4 + file.header.Size) 0
  (putBytes buf0 0 (be32Bytes file.header.Id)).bind fun buf1 =>
  (putBytes buf1 4 (le32Bytes file.header.Size)).bind fun buf2 =>
  (putBytes buf2 8 (be32Bytes file.header.Format)).bind fun buf3 =>
  (putBytes buf3 12 (be32Bytes file.fmtChunk.ID)).bind fun buf4 =>
  (putBytes buf4 16 (le32Bytes file.fmtChunk.Size)).bind fun buf5 =>
  (putBytes buf5 20 (le16Bytes file.fmtChunk.AudioFormat)).bind fun buf6 =>
  (putBytes buf6 22 (le16Bytes file.fmtChunk.Channel)).bind fun buf7 =>
  (putBytes buf7 24 (le32Bytes file.fmtChunk.SampleRate)).bind fun buf8 =>
  (putBytes buf8 28 (le32Bytes file.fmtChunk.ByteRate)).bind fun buf9 =>
  (putBytes buf9 32 (le16Bytes file.fmtChunk.BlockAlign)).bind fun buf10 =>
  (putBytes buf10 34 (le16Bytes file.fmtChunk.BitsPerSample)).bind fun buf11 =>
  (putBytes buf11 36 (be32Bytes file.dataChunk.ID)).bind fun buf12 =>
  (putBytes buf12 40 (le32Bytes file.dataChunk.Size)).bind fun buf13 =>
  if 44 ≤ buf13.length then
    (File.MarshalData file (buf13.drop 44)).map (fun tail => buf13.take 44 ++ tail)
  else none

/-! ## Concrete inputs used by the claim theorems -/

/-- An 8-bit mono file with samples 1, 2 (consistent sizes: data 2 bytes). -/
def c1file8 : File :=
  { fileZero with
    fmtChunk := { fileZero.fmtChunk with
                  AudioFormat := 1, Channel := 1, SampleRate := 8000,
                  ByteRate := 8000, BlockAlign := 1, BitsPerSample := 8 }
    dataChunk := { fileZero.dataChunk with ID := data_TAG, Size := 2, Data := [[1, 2]] } }

/-- A 32-bit mono file with the single sample 65537 = 0x10001. -/
def c1file32 : File :=
  { fileZero with
    fmtChunk := { fileZero.fmtChunk with
                  AudioFormat := 1, Channel := 1, SampleRate := 8000,
                  ByteRate := 32000, BlockAlign := 4, BitsPerSample := 32 }
    dataChunk := { fileZero.dataChunk with ID := data_TAG, Size := 4, Data := [[65537]] } }

/-- A well-formed 16-bit stereo stream: declared data size 4 (one sample per
channel); the sample bytes are laid out 4 bytes apart so that the over-reading
decoder recovers channel values 1 and 2. -/
def c2stream : List Nat :=
  [0x52, 0x49, 0x46, 0x46, 40, 0, 0, 0, 0x57, 0x41, 0x56, 0x45,
   0x66, 0x6d, 0x74, 0x20, 16, 0, 0, 0, 1, 0, 2, 0, 0x40, 0x1f, 0, 0,
   0x00, 0x7d, 0, 0, 4, 0, 16, 0,
   0x64, 0x61, 0x74, 0x61, 4, 0, 0, 0,
   1, 0, 0, 0, 2, 0]

/-- The decode of `c2stream`: a 16-bit stereo file, consistent header
(`8 + 40 = 48 = 44 + 4` data bytes), channel samples [1] and [2]. -/
def c2file : File :=
  { header := { Id := RIFF_TAG, Size := 40, Format := WAVE_TAG }
    fmtChunk := { ID := fmt_TAG, Size := 16, AudioFormat := 1, Channel := 2,
                  SampleRate := 8000, ByteRate := 32000, BlockAlign := 4, BitsPerSample := 16 }
    dataChunk := { ID := data_TAG, Size := 4, Data := [[1], [2]] } }

/-- A canonical 16-bit stereo stream: 2 samples per channel, frame bytes
`[01 00 02 00 03 00 04 00]` (declared data size 8, header size 44). -/
def c5stream : List Nat :=
  [0x52, 0x49, 0x46, 0x46, 44, 0, 0, 0, 0x57, 0x41, 0x56, 0x45,
   0x66, 0x6d, 0x74, 0x20, 16, 0, 0, 0, 1, 0, 2, 0, 0x40, 0x1f, 0, 0,
   0x00, 0x7d, 0, 0, 4, 0, 16, 0,
   0x64, 0x61, 0x74, 0x61, 8, 0, 0, 0,
   1, 0, 2, 0, 3, 0, 4, 0]

/-- What the decoder actually produces for `c5stream`. -/
def c5file : File :=
  { header := { Id := RIFF_TAG, Size := 44, Format := WAVE_TAG }
    fmtChunk := { ID := fmt_TAG, Size := 16, AudioFormat := 1, Channel := 2,
                  SampleRate := 8000, ByteRate := 32000, BlockAlign := 4, BitsPerSample := 16 }
    dataChunk := { ID := data_TAG, Size := 8, Data := [[1, 3], [3, 3]] } }

/-- Same bytes as `c5stream`: 16-bit stereo, declared data size 8. -/
def c4streamA : List Nat := c5stream

/-- 16-bit stereo stream with declared data size 0 and no sample bytes. -/
def c4streamZ : List Nat :=
  [0x52, 0x49, 0x46, 0x46, 36, 0, 0, 0, 0x57, 0x41, 0x56, 0x45,
   0x66, 0x6d, 0x74, 0x20, 16, 0, 0, 0, 1, 0, 2, 0, 0x40, 0x1f, 0, 0,
   0x00, 0x7d, 0, 0, 4, 0, 16, 0,
   0x64, 0x61, 0x74, 0x61, 0, 0, 0, 0]

/-- The decode of `c4streamZ`: both channels empty. -/
def c4fileZ : File :=
  { header := { Id := RIFF_TAG, Size := 36, Format := WAVE_TAG }
    fmtChunk := { ID := fmt_TAG, Size := 16, AudioFormat := 1, Channel := 2,
                  SampleRate := 8000, ByteRate := 32000, BlockAlign := 4, BitsPerSample := 16 }
    dataChunk := { ID := data_TAG, Size := 0, Data := [[], []] } }

/-- Mono stream recording `bitsPerSample = 24` with declared data size 0. -/
def c7stream : List Nat :=
  [0x52, 0x49, 0x46, 0x46, 36, 0, 0, 0, 0x57, 0x41, 0x56, 0x45,
   0x66, 0x6d, 0x74, 0x20, 16, 0, 0, 0, 1, 0, 1, 0, 0x40, 0x1f, 0, 0,
   0x00, 0x7d, 0, 0, 3, 0, 24, 0,
   0x64, 0x61, 0x74, 0x61, 0, 0, 0, 0]

/-- The decode of `c7stream`: success, with one empty channel. -/
def c7file : File :=
  { header := { Id := RIFF_TAG, Size := 36, Format := WAVE_TAG }
    fmtChunk := { ID := fmt_TAG, Size := 16, AudioFormat := 1, Channel := 1,
                  SampleRate := 8000, ByteRate := 32000, BlockAlign := 3, BitsPerSample := 24 }
    dataChunk := { ID := data_TAG, Size := 0, Data := [[]] } }

/-- A file recording `bitsPerSample = 24` with one sample to read. -/
def c7wfile : File :=
  { c7file with dataChunk := { c7file.dataChunk with Size := 3, Data := [] } }

/-- 8-bit mono stream whose single sample byte is 0xFF. -/
def c8streamA : List Nat :=
  [0x52, 0x49, 0x46, 0x46, 37, 0, 0, 0, 0x57, 0x41, 0x56, 0x45,
   0x66, 0x6d, 0x74, 0x20, 16, 0, 0, 0, 1, 0, 1, 0, 0x40, 0x1f, 0, 0,
   0x40, 0x1f, 0, 0, 1, 0, 8, 0,
   0x64, 0x61, 0x74, 0x61, 1, 0, 0, 0,
   0xff]

/-- 16-bit mono stream whose single sample is the bytes 0xFF 0xFF. -/
def c8streamB : List Nat :=
  [0x52, 0x49, 0x46, 0x46, 38, 0, 0, 0, 0x57, 0x41, 0x56, 0x45,
   0x66, 0x6d, 0x74, 0x20, 16, 0, 0, 0, 1, 0, 1, 0, 0x40, 0x1f, 0, 0,
   0x80, 0x3e, 0, 0, 2, 0, 16, 0,
   0x64, 0x61, 0x74, 0x61, 2, 0, 0, 0,
   0xff, 0xff]

/-- Stream whose fmt chunk records `channelCount = 0` (passes all tag checks). -/
def c9streamA : List Nat :=
  [0x52, 0x49, 0x46, 0x46, 36, 0, 0, 0, 0x57, 0x41, 0x56, 0x45,
   0x66, 0x6d, 0x74, 0x20, 16, 0, 0, 0, 1, 0, 0, 0, 0x40, 0x1f, 0, 0,
   0x00, 0x7d, 0, 0, 4, 0, 16, 0,
   0x64, 0x61, 0x74, 0x61, 0, 0, 0, 0]

/-- Stream whose fmt chunk records `bitsPerSample = 7` (passes all tag checks). -/
def c9streamB : List Nat :=
  [0x52, 0x49, 0x46, 0x46, 36, 0, 0, 0, 0x57, 0x41, 0x56, 0x45,
   0x66, 0x6d, 0x74, 0x20, 16, 0, 0, 0, 1, 0, 1, 0, 0x40, 0x1f, 0, 0,
   0x00, 0x7d, 0, 0, 1, 0, 7, 0,
   0x64, 0x61, 0x74, 0x61, 0, 0, 0, 0]

/-! ## Claim theorems (concrete, hypothesis-free ones first) -/

/-- C1: the claim says the encode path writes each sample with the byte width
implied by `bitsPerSample` (1/2/4 bytes for 8/16/32).  The code instead
hardcodes 2 bytes per sample: an 8-bit file with samples [1, 2] is encoded as
the four bytes `01 00 02 00` (instead of `01 02`), a 2-byte buffer — exactly
enough for the width-correct 8-bit encoding — makes it panic, and a 32-bit
file with sample 0x10001 is truncated to the two bytes `01 00`. -/
theorem c1_encode_width_hardcoded :
    File.MarshalData c1file8 (List.replicate 4 0) = some [1, 0, 2, 0] ∧
    File.MarshalData c1file8 (List.replicate 2 0) = none ∧
    File.MarshalData c1file32 (List.replicate 2 0) = some [1, 0] :=
  ⟨rfl, rfl, rfl⟩

/-- C2: round-trip fails for a valid decoded 16-bit PCM file.  `c2file` is the
(fully consistent) decode of `c2stream`, with channel samples [1] and [2];
re-decoding its own encoding yields channel samples [1] and [1], because
`ParseData` consumes 4 stream bytes per (sample, channel) pair even at 16-bit
width while `Marshal` writes 2. -/
theorem c2_roundtrip_16bit_fails :
    Unmarshal [c2stream] = (c2file, GoErr.nil, []) ∧
    c2file.dataChunk.Data = [[1], [2]] ∧
    (Marshal c2file).map (fun bs => (Unmarshal [bs]).1.dataChunk.Data) = some [[1], [1]] :=
  ⟨rfl, rfl, rfl⟩

/-- C3: a single short read is accepted as a successful chunk decode.  A read
delivering only the 4 tag bytes of the fmt chunk (with more bytes still
pending in the stream) makes `FmtChunk.Unmarshal` succeed with all other
fields zero, instead of failing with the ShortRead error
"fail to read fmt chunk"; likewise a 4-byte delivery to `Header.Unmarshal`
produces the InvalidTag error "not a valid WAVE file" instead of ShortRead. -/
theorem c3_short_read_accepted :
    FmtChunk.Unmarshal fileZero.fmtChunk [[0x66, 0x6d, 0x74, 0x20], [1, 0, 2, 0]] =
      ({ ID := fmt_TAG, Size := 0, AudioFormat := 0, Channel := 0, SampleRate := 0,
         ByteRate := 0, BlockAlign := 0, BitsPerSample := 0 }, GoErr.nil, [[1, 0, 2, 0]]) ∧
    Header.Unmarshal fileZero.header [[0x52, 0x49, 0x46, 0x46], [0x57, 0x41, 0x56, 0x45]] =
      ({ Id := RIFF_TAG, Size := 0, Format := 0 }, GoErr.error "not a valid WAVE file",
       [[0x57, 0x41, 0x56, 0x45]]) :=
  ⟨rfl, rfl⟩

/-- C5: for the canonical 2-channel, 2-sample, 16-bit stream with frame bytes
`[01 00 02 00 03 00 04 00]`, the claim expects channel 0 = [1, 3] and
channel 1 = [2, 4].  The decoder consumes 4 bytes per (sample, channel) pair
regardless of the 16-bit width, so it actually yields channel 0 = [1, 3]
(coincidentally) and channel 1 = [3, 3]. -/
theorem c5_interleave_defect :
    Unmarshal [c5stream] = (c5file, GoErr.nil, []) ∧
    c5file.dataChunk.Data = [[1, 3], [3, 3]] ∧
    ([[1, 3], [3, 3]] : List Sample) ≠ [[1, 3], [2, 4]] :=
  ⟨rfl, rfl, by decide⟩

/-- C6 counterexample: for the 12-byte stream `01 02 ... 0C` (first 4 bytes not
"RIFF"), decode does fail with the InvalidTag error, but the remaining reader
is empty: all 12 bytes were consumed, so the consumed count (12) exceeds the
4 bytes the claim allows. -/
theorem c6_counterexample :
    (Unmarshal [[1, 2, 3, 4, 5, 6, 7, 8, 9, 10, 11, 12]]).2.1 =
      GoErr.error "not a valid RIFF file" ∧
    (Unmarshal [[1, 2, 3, 4, 5, 6, 7, 8, 9, 10, 11, 12]]).2.2 = [] ∧
    ¬ (([[1, 2, 3, 4, 5, 6, 7, 8, 9, 10, 11, 12]] : Rd).flatten.length -
        ((Unmarshal [[1, 2, 3, 4, 5, 6, 7, 8, 9, 10, 11, 12]]).2.2).flatten.length ≤ 4) :=
  ⟨rfl, rfl, by decide⟩

/-- C7 counterexample: `c7stream` records `bitsPerSample = 24`, yet decode
succeeds (no UnsupportedBitDepth error) because the declared data size 0 gives
a sample count of 0 and the width check sits inside the per-sample loop. -/
theorem c7_counterexample :
    Unmarshal [c7stream] = (c7file, GoErr.nil, []) ∧
    c7file.fmtChunk.BitsPerSample = 24 :=
  ⟨rfl, rfl⟩

/-! ## Helper lemmas about the sample-reading loop -/

/-- Writing one sample slot never changes the per-channel lengths. -/
lemma map_length_setSample (data : List Sample) (c s : Nat) (v : Int) :
    (setSample data c s v).map List.length = data.map List.length := by
  induction data generalizing c with
  | nil => rfl
  | cons hd tl ih =>
    cases c with
    | zero => simp [setSample]
    | succ c2 => simpa [setSample] using ih c2

/-- A successful sample loop preserves the per-channel lengths. -/
lemma sampleLoop_ok_map_length (bits : Nat) (pairs : List (Nat × Nat)) :
    ∀ (buf : List Nat) (r : Rd) (data data2 : List Sample) (r2 : Rd),
      sampleLoop bits pairs buf r data = LoopOut.ok data2 r2 →
      data2.map List.length = data.map List.length := by
  induction pairs with
  | nil =>
    intro buf r data data2 r2 h
    simp only [sampleLoop] at h
    injection h with h1 _
    rw [← h1]
  | cons p rest ih =>
    intro buf r data data2 r2 h
    obtain ⟨s, c⟩ := p
    simp only [sampleLoop] at h
    split at h
    · exact (ih _ _ _ _ _ h).trans (map_length_setSample data c s _)
    · split at h
      · exact (ih _ _ _ _ _ h).trans (map_length_setSample data c s _)
      · split at h
        · exact (ih _ _ _ _ _ h).trans (map_length_setSample data c s _)
        · exact absurd h (by simp)

/-- A successful `ParseData` only fills in the sample data: header, fmt chunk
and data-chunk id/size are untouched, and the per-channel lengths are
`Channel` copies of `Size / Channel / (BitsPerSample / 8)`. -/
lemma parseData_ok (file file2 : File) (r r2 : Rd)
    (h : File.ParseData file r = (file2, GoErr.nil, r2)) :
    file2.header = file.header ∧ file2.fmtChunk = file.fmtChunk ∧
    file2.dataChunk.ID = file.dataChunk.ID ∧
    file2.dataChunk.Size = file.dataChunk.Size ∧
    file2.dataChunk.Data.map List.length =
      List.replicate file.fmtChunk.Channel
        (file.dataChunk.Size / file.fmtChunk.Channel / (file.fmtChunk.BitsPerSample / 8)) := by
  unfold File.ParseData at h
  dsimp only at h
  split at h
  · have := congrArg (fun t => t.2.1) h
    simp at this
  · split at h
    next data2 r2x hsl =>
      have hf : file2 = { file with dataChunk := { file.dataChunk with Data := data2 } } :=
        (congrArg (fun t => t.1) h).symm
      subst hf
      refine ⟨rfl, rfl, rfl, rfl, ?_⟩
      have hml := sampleLoop_ok_map_length _ _ _ _ _ _ _ hsl
      simp only at hml ⊢
      rw [hml]
      simp
    next msg r2x hsl =>
      have := congrArg (fun t => t.2.1) h
      simp at this

/-- A successful `Unmarshal` ends in a successful `ParseData` producing the
same file and remaining reader. -/
lemma unmarshal_ok (r : Rd) (f : File) (rOut : Rd)
    (h : Unmarshal r = (f, GoErr.nil, rOut)) :
    ∃ (file3 : File) (r3 : Rd), File.ParseData file3 r3 = (f, GoErr.nil, rOut) := by
  unfold Unmarshal at h
  dsimp only at h
  split at h
  · next hne =>
    have := congrArg (fun t => t.2.1) h
    simp at this
    exact absurd this hne
  · split at h
    · next hne =>
      have := congrArg (fun t => t.2.1) h
      simp at this
      exact absurd this hne
    · split at h
      · next hne =>
        have := congrArg (fun t => t.2.1) h
        simp at this
        exact absurd this hne
      · exact ⟨_, _, h⟩

/-- C4: for every successfully decoded file the number of channel sequences
equals `Channel` and each channel has
`Size / Channel / (BitsPerSample / 8)` samples; concretely, declared byte
size 8 with 2 channels at 16 bits yields 2 samples per channel, and declared
byte size 0 decodes without error to empty channels, consuming nothing from
the reader (the pending delivery `[99]` is untouched). -/
theorem c4_sample_counts :
    (∀ (r : Rd) (f : File) (rOut : Rd), Unmarshal r = (f, GoErr.nil, rOut) →
        f.dataChunk.Data.length = f.fmtChunk.Channel ∧
        ∀ ch ∈ f.dataChunk.Data,
          ch.length = f.dataChunk.Size / f.fmtChunk.Channel / (f.fmtChunk.BitsPerSample / 8)) ∧
    ((Unmarshal [c4streamA]).2.1 = GoErr.nil ∧
      (Unmarshal [c4streamA]).1.dataChunk.Size = 8 ∧
      (Unmarshal [c4streamA]).1.fmtChunk.Channel = 2 ∧
      (Unmarshal [c4streamA]).1.fmtChunk.BitsPerSample = 16 ∧
      (Unmarshal [c4streamA]).1.dataChunk.Data.map List.length = [2, 2]) ∧
    (Unmarshal [c4streamZ, [99]] = (c4fileZ, GoErr.nil, [[99]]) ∧
      c4fileZ.dataChunk.Data = [[], []]) := by
  refine ⟨?_, ⟨rfl, rfl, rfl, rfl, rfl⟩, rfl, rfl⟩
  intro r f rOut h
  obtain ⟨file3, r3, hp⟩ := unmarshal_ok r f rOut h
  obtain ⟨hh, hfm, hid, hsz, hml⟩ := parseData_ok file3 f r3 rOut hp
  constructor
  · have hl := congrArg List.length hml
    simp at hl
    rw [hl, hfm]
  · intro ch hch
    have hmem : ch.length ∈ f.dataChunk.Data.map List.length :=
      List.mem_map_of_mem _ hch
    rw [hml] at hmem
    rw [List.eq_of_mem_replicate hmem, hfm, hsz]

/-- C4 witness: the general invariant applied to the concrete decode of
`c4streamA`. -/
theorem c4_sample_counts_witness :
    (Unmarshal [c4streamA]).1.dataChunk.Data.length =
      (Unmarshal [c4streamA]).1.fmtChunk.Channel :=
  (c4_sample_counts.1 [c4streamA] (Unmarshal [c4streamA]).1 [] rfl).1

/-- C8: decoded samples are sign-extended: the 8-bit sample byte 0xFF decodes
to -1, and the 16-bit little-endian sample bytes 0xFF 0xFF decode to -1, in
the wide in-memory `Int` sample type. -/
theorem c8_sign_extension :
    (Unmarshal [c8streamA]).1.dataChunk.Data = [[-1]] ∧
    (Unmarshal [c8streamA]).2.1 = GoErr.nil ∧
    (Unmarshal [c8streamB]).1.dataChunk.Data = [[-1]] ∧
    (Unmarshal [c8streamB]).2.1 = GoErr.nil :=
  ⟨rfl, rfl, rfl, rfl⟩

/-- C9: `ParseData` divides by `Channel` and by `BitsPerSample / 8` before
validating either field, so any file whose fmt chunk records `Channel = 0`
or `BitsPerSample < 8` makes it panic with a division by zero instead of
returning an error; concretely, the streams `c9streamA` (channel count 0)
and `c9streamB` (bits per sample 7) pass all three chunk decoders and then
panic. -/
theorem c9_division_by_zero :
    (∀ (file : File) (r : Rd),
        file.fmtChunk.Channel = 0 ∨ file.fmtChunk.BitsPerSample < 8 →
        File.ParseData file r =
          (file, GoErr.panicked "runtime error: integer divide by zero", r)) ∧
    (Unmarshal [c9streamA]).2.1 = GoErr.panicked "runtime error: integer divide by zero" ∧
    (Unmarshal [c9streamB]).2.1 = GoErr.panicked "runtime error: integer divide by zero" := by
  refine ⟨?_, rfl, rfl⟩
  intro file r h
  have hcond : file.fmtChunk.Channel = 0 ∨ file.fmtChunk.BitsPerSample / 8 = 0 :=
    h.imp id (fun hb => Nat.div_eq_of_lt hb)
  unfold File.ParseData
  rw [if_pos hcond]

/-- C9 witness: the zero file records `Channel = 0`, so `ParseData` panics. -/
theorem c9_division_by_zero_witness :
    File.ParseData fileZero [] =
      (fileZero, GoErr.panicked "runtime error: integer divide by zero", []) :=
  c9_division_by_zero.1 fileZero [] (Or.inl rfl)

/-- With a positive sample count and channel count the pair list of the
nested loops starts with the pair (0, 0). -/
lemma framePairs_cons (sc ch : Nat) (hsc : 1 ≤ sc) (hch : 1 ≤ ch) :
    ∃ tail, framePairs sc ch = (0, 0) :: tail := by
  obtain ⟨m, rfl⟩ : ∃ m, sc = m + 1 := ⟨sc - 1, by omega⟩
  obtain ⟨k, rfl⟩ : ∃ k, ch = k + 1 := ⟨ch - 1, by omega⟩
  simp only [framePairs, List.range_succ_eq_map, List.flatMap_cons, List.map_cons,
    List.cons_append]
  exact ⟨_, rfl⟩

/-- On a bit depth outside {8, 16, 32} the sample loop fails on its very
first pair, after performing one more read. -/
lemma sampleLoop_unsupported (bits s c : Nat) (rest : List (Nat × Nat))
    (buf : List Nat) (r : Rd) (data : List Sample)
    (h8 : bits ≠ 8) (h16 : bits ≠ 16) (h32 : bits ≠ 32) :
    sampleLoop bits ((s, c) :: rest) buf r data =
      LoopOut.error "unsupported bits per sample" (readUpTo 4 r).2.1 := by
  simp only [sampleLoop]
  rw [if_neg h8, if_neg h16, if_neg h32]

/-- C7 (amended): with `bitsPerSample` outside {8, 16, 32} but at least 8,
at least one channel and at least one sample to read, `ParseData` fails with
the UnsupportedBitDepth error and leaves the file — in particular its channel
data — unchanged.  (The unamended claim fails when the derived sample count
is 0, see the counterexample `c7_counterexample`; values below 8 instead
panic, see C9.) -/
theorem c7_unsupported_depth_amended (file : File) (r : Rd)
    (hbits : file.fmtChunk.BitsPerSample ≠ 8 ∧ file.fmtChunk.BitsPerSample ≠ 16 ∧
      file.fmtChunk.BitsPerSample ≠ 32)
    (h8 : 8 ≤ file.fmtChunk.BitsPerSample)
    (hch : 1 ≤ file.fmtChunk.Channel)
    (hsc : 1 ≤ file.dataChunk.Size / file.fmtChunk.Channel /
      (file.fmtChunk.BitsPerSample / 8)) :
    (File.ParseData file r).1 = file ∧
    (File.ParseData file r).2.1 = GoErr.error "unsupported bits per sample" := by
  have hdiv : 1 ≤ file.fmtChunk.BitsPerSample / 8 := Nat.div_pos h8 (by norm_num)
  have hcond : ¬ (file.fmtChunk.Channel = 0 ∨ file.fmtChunk.BitsPerSample / 8 = 0) := by
    push_neg
    exact ⟨by omega, by omega⟩
  obtain ⟨tail, htail⟩ := framePairs_cons _ _ hsc hch
  have hmain : File.ParseData file r =
      (file, GoErr.error "unsupported bits per sample", (readUpTo 4 r).2.1) := by
    unfold File.ParseData
    dsimp only
    rw [if_neg hcond, htail,
      sampleLoop_unsupported _ 0 0 tail _ r _ hbits.1 hbits.2.1 hbits.2.2]
  exact ⟨by rw [hmain], by rw [hmain]⟩

/-- C7 witness: a 24-bit mono file with declared data size 3 (one sample to
read) is rejected with the UnsupportedBitDepth error, its data unchanged. -/
theorem c7_unsupported_depth_witness :
    (File.ParseData c7wfile []).1 = c7wfile ∧
    (File.ParseData c7wfile []).2.1 = GoErr.error "unsupported bits per sample" :=
  c7_unsupported_depth_amended c7wfile []
    ⟨by decide, by decide, by decide⟩ (by decide) (by decide) (by decide)

/-- If the first four bytes of a delivery (zero-padded when shorter) do not
spell "RIFF", the big-endian tag word of the padded 12-byte buffer is not
`RIFF_TAG`. -/
lemma beU32_pad12_ne_riff (l : List Nat) (hbytes : ∀ b ∈ l, b < 256)
    (htag : l.take 4 ≠ [0x52, 0x49, 0x46, 0x46]) :
    beU32 (padTo 12 l) 0 ≠ RIFF_TAG := by
  rcases l with _ | ⟨a, _ | ⟨b, _ | ⟨c, _ | ⟨d, rest⟩⟩⟩⟩
  · decide
  · intro h
    simp [beU32, padTo, RIFF_TAG] at h
    omega
  · intro h
    simp [beU32, padTo, RIFF_TAG] at h
    omega
  · intro h
    simp [beU32, padTo, RIFF_TAG] at h
    omega
  · intro h
    have ha : a < 256 := hbytes a (by simp)
    have hb : b < 256 := hbytes b (by simp)
    have hc : c < 256 := hbytes c (by simp)
    have hd : d < 256 := hbytes d (by simp)
    simp [beU32, padTo, RIFF_TAG] at h
    have hvals : a = 82 ∧ b = 73 ∧ c = 70 ∧ d = 70 := by omega
    obtain ⟨rfl, rfl, rfl, rfl⟩ := hvals
    exact htag rfl

/-- When the first delivery of the stream does not start with the "RIFF"
tag, `Header.Unmarshal` reads its whole 12-byte prefix (consuming up to 12
bytes of the delivery) and then fails with the InvalidTag error. -/
lemma header_unmarshal_not_riff (h : Header) (c : List Nat) (rest : Rd)
    (hbytes : ∀ b ∈ c, b < 256)
    (htag : c.take 4 ≠ [0x52, 0x49, 0x46, 0x46]) :
    (Header.Unmarshal h (c :: rest)).2.1 = GoErr.error "not a valid RIFF file" ∧
    (Header.Unmarshal h (c :: rest)).2.2 =
      (if c.length ≤ 12 then rest else c.drop 12 :: rest) := by
  by_cases hlen : c.length ≤ 12
  · have hread : readUpTo 12 (c :: rest) = (c, rest, false) := by
      simp [readUpTo, hlen]
    have hne : beU32 (padTo 12 c) 0 ≠ RIFF_TAG := beU32_pad12_ne_riff c hbytes htag
    simp [Header.Unmarshal, hread, hne, hlen]
  · have hread : readUpTo 12 (c :: rest) = (c.take 12, c.drop 12 :: rest, false) := by
      simp [readUpTo, hlen]
    have htag12 : (c.take 12).take 4 ≠ [0x52, 0x49, 0x46, 0x46] := by
      rw [List.take_take]
      simpa using htag
    have hne : beU32 (padTo 12 (c.take 12)) 0 ≠ RIFF_TAG :=
      beU32_pad12_ne_riff (c.take 12) (fun b hb => hbytes b (List.take_subset 12 c hb)) htag12
    simp [Header.Unmarshal, hread, hne, hlen]

/-- C6 (amended): for every stream whose first delivery does not begin with
the 4 tag bytes "RIFF", decode fails with the InvalidTag error
"not a valid RIFF file" — but only after the header decoder has read its full
12-byte prefix, so up to 12 bytes (not at most 4) are consumed from the first
delivery before the failure.  (The unamended claim, that no byte beyond the
first 4 is consumed, fails: see `c6_counterexample`.) -/
theorem c6_invalid_tag_after_full_read (c : List Nat) (rest : Rd)
    (hbytes : ∀ b ∈ c, b < 256)
    (htag : c.take 4 ≠ [0x52, 0x49, 0x46, 0x46]) :
    (Unmarshal (c :: rest)).2.1 = GoErr.error "not a valid RIFF file" ∧
    (Unmarshal (c :: rest)).2.2 = (if c.length ≤ 12 then rest else c.drop 12 :: rest) := by
  obtain ⟨he, hr⟩ := header_unmarshal_not_riff fileZero.header c rest hbytes htag
  unfold Unmarshal
  dsimp only
  rw [if_pos (by rw [he]; simp)]
  exact ⟨he, hr⟩

/-- C6 witness: a 13-byte first delivery not starting with "RIFF" fails with
the InvalidTag error and leaves exactly its 13th byte (plus the later
delivery) unread: the first 12 bytes were consumed. -/
theorem c6_invalid_tag_witness :
    (Unmarshal [[1, 2, 3, 4, 5, 6, 7, 8, 9, 10, 11, 12, 13], [99]]).2.1 =
      GoErr.error "not a valid RIFF file" ∧
    (Unmarshal [[1, 2, 3, 4, 5, 6, 7, 8, 9, 10, 11, 12, 13], [99]]).2.2 =
      (if ([1, 2, 3, 4, 5, 6, 7, 8, 9, 10, 11, 12, 13] : List Nat).length ≤ 12 then [[99]]
       else ([1, 2, 3, 4, 5, 6, 7, 8, 9, 10, 11, 12, 13] : List Nat).drop 12 :: [[99]]) :=
  c6_invalid_tag_after_full_read [1, 2, 3, 4, 5, 6, 7, 8, 9, 10, 11, 12, 13] [[99]]
    (by decide) (by decide)

/-- A successful buffer write requires the window to fit and preserves the
buffer length. -/
lemma putBytes_some (buf : List Nat) (off : Nat) (bs : List Nat) (buf2 : List Nat)
    (h : putBytes buf off bs = some buf2) :
    off + bs.length ≤ buf.length ∧ buf2.length = buf.length := by
  unfold putBytes at h
  split at h
  · next hle =>
    injection h with h2
    refine ⟨hle, ?_⟩
    rw [← h2]
    simp [List.length_take, List.length_drop]
    omega
  · exact absurd h (by simp)

/-- The number of (sample, channel) pairs visited by the nested loops. -/
lemma framePairs_length (sc ch : Nat) : (framePairs sc ch).length = sc * ch := by
  induction sc with
  | zero => simp [framePairs]
  | succ n ih =>
    have hstep : framePairs (n + 1) ch =
        framePairs n ch ++ (List.range ch).map (fun c => (n, c)) := by
      simp only [framePairs, List.range_succ, List.flatMap_append, List.flatMap_cons,
        List.flatMap_nil, List.append_nil]
    rw [hstep, List.length_append, ih, List.length_map, List.length_range, Nat.succ_mul]

/-- If the pair list is nonempty and the buffer cannot hold two bytes per
remaining pair, the write loop panics (bounds check or index check). -/
lemma marshalLoop_overflow (data : List Sample) (pairs : List (Nat × Nat)) :
    ∀ (buf : List Nat) (pos : Nat), pairs ≠ [] → buf.length < pos + 2 * pairs.length →
      marshalLoop data pairs buf pos = none := by
  induction pairs with
  | nil => intro buf pos hne _; exact absurd rfl hne
  | cons p rest ih =>
    intro buf pos _ hlt
    obtain ⟨s, c⟩ := p
    simp only [marshalLoop]
    by_cases hle : pos + 2 ≤ buf.length
    · rw [if_pos hle]
      cases hget : (data.get? c).bind (fun ch => ch.get? s) with
      | none => rfl
      | some v =>
        have hrest : rest ≠ [] := by
          intro hr
          subst hr
          simp at hlt
          omega
        have hlen2 : (buf.take pos ++ le16Bytes (u16ofInt v) ++ buf.drop (pos + 2)).length =
            buf.length := by
          simp [le16Bytes, List.length_take, List.length_drop]
          omega
        apply ih _ _ hrest
        rw [hlen2]
        simp only [List.length_cons] at hlt
        omega
    · rw [if_neg hle]

/-- C10: `Marshal` sizes its buffer as `8 + Header.Size` and `MarshalData`
unconditionally indexes the first channel and writes 2 bytes per
(sample, channel) pair, so every file with empty channel data, and every file
whose header size leaves less room than `44 + 2 · channels · samples`,
makes `Marshal` panic (out-of-range access) instead of returning bytes. -/
theorem c10_marshal_panics (file : File)
    (hbad : file.dataChunk.Data = [] ∨
      8 + file.header.Size <
        44 + 2 * file.dataChunk.Data.length * (file.dataChunk.Data.headD []).length) :
    Marshal file = none := by
  by_contra hne
  rw [← ne_eq, Option.ne_none_iff_exists'] at hne
  obtain ⟨out, hout⟩ := hne
  unfold Marshal at hout
  simp only [Option.bind_eq_some] at hout
  obtain ⟨b1, h1, b2, h2, b3, h3, b4, h4, b5, h5, b6, h6, b7, h7, b8, h8, b9, h9,
    b10, h10, b11, h11, b12, h12, b13, h13, hfin⟩ := hout
  obtain ⟨c1, l1⟩ := putBytes_some _ _ _ _ h1
  obtain ⟨c2, l2⟩ := putBytes_some _ _ _ _ h2
  obtain ⟨c3, l3⟩ := putBytes_some _ _ _ _ h3
  obtain ⟨c4, l4⟩ := putBytes_some _ _ _ _ h4
  obtain ⟨c5, l5⟩ := putBytes_some _ _ _ _ h5
  obtain ⟨c6, l6⟩ := putBytes_some _ _ _ _ h6
  obtain ⟨c7, l7⟩ := putBytes_some _ _ _ _ h7
  obtain ⟨c8, l8⟩ := putBytes_some _ _ _ _ h8
  obtain ⟨c9, l9⟩ := putBytes_some _ _ _ _ h9
  obtain ⟨c10, l10⟩ := putBytes_some _ _ _ _ h10
  obtain ⟨c11, l11⟩ := putBytes_some _ _ _ _ h11
  obtain ⟨c12, l12⟩ := putBytes_some _ _ _ _ h12
  obtain ⟨c13, l13⟩ := putBytes_some _ _ _ _ h13
  have L13 : b13.length = 8 + file.header.Size := by
    rw [l13, l12, l11, l10, l9, l8, l7, l6, l5, l4, l3, l2, l1]
    simp only [List.length_replicate]
  have h44 : 44 ≤ b13.length := by
    simp [le32Bytes] at c13
    rw [L13]
    rw [l12, l11, l10, l9, l8, l7, l6, l5, l4, l3, l2, l1] at c13
    simp at c13
    omega
  rw [if_pos h44, Option.map_eq_some'] at hfin
  obtain ⟨tail, htail, -⟩ := hfin
  rcases hD : file.dataChunk.Data with _ | ⟨ch0, restD⟩
  · unfold File.MarshalData at htail
    rw [hD] at htail
    simp at htail
  · rcases hbad with hnil | hsz
    · rw [hD] at hnil
      exact absurd hnil (by simp)
    · unfold File.MarshalData at htail
      rw [hD] at htail
      simp only [List.head?_cons] at htail
      have hsz2 : 8 + file.header.Size <
          44 + 2 * ((restD.length + 1) * ch0.length) := by
        rw [hD] at hsz
        simpa [Nat.mul_assoc] using hsz
      have hover : (b13.drop 44).length <
          0 + 2 * (framePairs ch0.length (ch0 :: restD).length).length := by
        rw [framePairs_length, List.length_drop, L13]
        simp only [List.length_cons]
        rw [Nat.mul_comm ch0.length (restD.length + 1)]
        generalize (restD.length + 1) * ch0.length = P at hsz2 ⊢
        omega
      have hfp : framePairs ch0.length (ch0 :: restD).length ≠ [] := by
        intro hfpnil
        rw [hfpnil] at hover
        simp at hover
      rw [marshalLoop_overflow _ _ _ _ hfp hover] at htail
      exact Option.noConfusion htail

/-- C10 witness: the zero file has empty channel data, so `Marshal` panics. -/
theorem c10_marshal_panics_witness : Marshal fileZero = none :=
  c10_marshal_panics fileZero (Or.inl rfl)

end Wav
